import Mathlib

/-!
Shallow embedding of `src/scripts/notebooklm_add_urls.py` (NotebookLM URL
batch adder).  The script talks to an external `notebooklm` client; we model
that client as a record of response functions and make every embedded
function also return the trace of remote calls it issued, so that ordering
and call-count properties become statements about the trace.
-/

namespace Axon

instance {ε α : Type} [DecidableEq ε] [DecidableEq α] : DecidableEq (Except ε α) := fun
  | .ok a, .ok b =>
    if h : a = b then .isTrue (by rw [h]) else .isFalse (by intro c; cases c; exact h rfl)
  | .ok _, .error _ => .isFalse (by intro c; cases c)
  | .error _, .ok _ => .isFalse (by intro c; cases c)
  | .error a, .error b =>
    if h : a = b then .isTrue (by rw [h]) else .isFalse (by intro c; cases c; exact h rfl)

/-- Python's `str.lower()` (ASCII case folding), structurally on the
character list. -/
def str_lower (s : String) : String := ⟨s.data.map Char.toLower⟩

/-- Modelled from the spec: the error taxonomy of the external `notebooklm`
library (its module `notebooklm.exceptions` is not under `src/`; `conftest.py`
declares `RPCError`, `SourceAddError`, `RateLimitError` as direct subclasses of
`Exception`).  `timeoutError` is Python's builtin `TimeoutError`; `otherError`
stands for any other exception reaching the script.  `msg` is Python's
`str(e)`. -/
inductive Exc where
  | rpcError (msg : String)
  | sourceAddError (msg : String)
  | rateLimitError (msg : String)
  | timeoutError (msg : String)
  | otherError (msg : String)
deriving DecidableEq

/-- Python's `str(e)` on a modelled exception. -/
def Exc.msg : Exc → String
  | .rpcError m => m
  | .sourceAddError m => m
  | .rateLimitError m => m
  | .timeoutError m => m
  | .otherError m => m

/-- Whether `except RPCError` (line 58) catches the exception. -/
def Exc.isRPCError : Exc → Bool
  | .rpcError _ => true
  | _ => false

/-- Whether `except (SourceAddError, RateLimitError)` (line 98) catches the
exception. -/
def Exc.isSourceAddOrRateLimit : Exc → Bool
  | .sourceAddError _ => true
  | .rateLimitError _ => true
  | _ => false

/-- Whether `except TimeoutError` (line 131) catches the exception. -/
def Exc.isTimeoutError : Exc → Bool
  | .timeoutError _ => true
  | _ => false

/-- A notebook as returned by the client (`notebook.id`, `notebook.title`). -/
structure Notebook where
  id : String
  title : String
deriving DecidableEq

/-- A source as returned by `client.sources.add_url` (`source.id`). -/
structure Source where
  id : String
deriving DecidableEq

/-- One remote call issued by the script, with its arguments. -/
inductive CallEvent where
  | get (target : String)
  | list
  | create (title : String)
  | addUrl (notebookId url : String)
  | waitForSources (notebookId : String) (sourceIds : List String) (timeout : ℚ)
  | fromStorage
deriving DecidableEq

/-- Is the event the batched `wait_for_sources` call? -/
def CallEvent.isWait : CallEvent → Bool
  | .waitForSources _ _ _ => true
  | _ => false

/-- Is the event a `sources.add_url` submission call? -/
def CallEvent.isAddUrl : CallEvent → Bool
  | .addUrl _ _ => true
  | _ => false

/-- The external `NotebookLMClient`, modelled as a record of response
functions: each remote method either returns a value or raises a modelled
exception. -/
structure Client where
  notebooks_get : String → Except Exc Notebook
  notebooks_list : Except Exc (List Notebook)
  notebooks_create : String → Except Exc Notebook
  sources_add_url : String → String → Except Exc Source
  sources_wait_for_sources : String → List String → ℚ → Except Exc Unit

/-- Lines 61–70 of `resolve_notebook`: list notebooks, search for the first
one whose lowercased title equals the lowercased target, else create a new
notebook titled `target`. -/
def search_or_create (client : Client) (target : String) :
    Except Exc (String × String) × List CallEvent :=
  match client.notebooks_list with
  | .error e => (.error e, [.list])
  | .ok notebooks =>
    match notebooks.find? (fun nb => str_lower nb.title == str_lower target) with
    | some nb => (.ok (nb.id, nb.title), [.list])
    | none =>
      match client.notebooks_create target with
      | .ok notebook => (.ok (notebook.id, notebook.title), [.list, .create target])
      | .error e => (.error e, [.list, .create target])

/-- Lines 38–70: resolve notebook id and title from `target`.  Try
`notebooks.get(target)`; on `RPCError` fall through to the title search /
create; any other exception from the get propagates. -/
def resolve_notebook (client : Client) (target : String) :
    Except Exc (String × String) × List CallEvent :=
  match client.notebooks_get target with
  | .ok notebook => (.ok (notebook.id, notebook.title), [.get target])
  | .error e =>
    if e.isRPCError then
      let r := search_or_create client target
      (r.1, .get target :: r.2)
    else
      (.error e, [.get target])

/-- The per-URL failure message of lines 98–101: a `SourceAddError` or
`RateLimitError` is recorded as `str(e)`; any other exception is recorded as
`"Unexpected error: " ++ str(e)`. -/
def perUrlFailureMsg (e : Exc) : String :=
  if e.isSourceAddOrRateLimit then e.msg else "Unexpected error: " ++ e.msg

/-- Lines 73–103: phase 1.  Sequentially submit each URL with
`sources.add_url(notebook_id, url, wait=False)`; collect source ids of
successes and `(url, message)` pairs of failures.  Every exception is caught
per URL (lines 98–101), so the function is total. -/
def add_urls_phase1 (client : Client) (notebook_id : String) :
    List String → (List String × List (String × String)) × List CallEvent
  | [] => (([], []), [])
  | url :: rest =>
    let r := add_urls_phase1 client notebook_id rest
    match client.sources_add_url notebook_id url with
    | .ok source => ((source.id :: r.1.1, r.1.2), .addUrl notebook_id url :: r.2)
    | .error e =>
      ((r.1.1, (url, perUrlFailureMsg e) :: r.1.2), .addUrl notebook_id url :: r.2)

/-- Lines 106–134: phase 2.  Return immediately when `source_ids` is empty;
otherwise issue one batched `wait_for_sources` call; a `TimeoutError` is
swallowed, any other exception propagates. -/
def wait_for_sources_phase2 (client : Client) (notebook_id : String)
    (source_ids : List String) (timeout : ℚ) :
    Except Exc Unit × List CallEvent :=
  if source_ids.isEmpty then (.ok (), [])
  else
    match client.sources_wait_for_sources notebook_id source_ids timeout with
    | .ok _ => (.ok (), [.waitForSources notebook_id source_ids timeout])
    | .error e =>
      if e.isTimeoutError then (.ok (), [.waitForSources notebook_id source_ids timeout])
      else (.error e, [.waitForSources notebook_id source_ids timeout])

/-- Modelled from the spec: the combined outcome of `json.load(sys.stdin)`
and the required-field accesses `input_data["notebook"]`,
`input_data["urls"]` (lines 140–142; the JSON parser itself is Python
standard-library code outside `src/`).  `malformed` is a JSON decode
exception, `missingField` a `KeyError` on one of the two required keys; both
carry `str(e)`. -/
inductive StdinData where
  | malformed (msg : String)
  | missingField (msg : String)
  | valid (notebook : String) (urls : List String)
deriving DecidableEq

/-- The process environment of one invocation: what standard input parses to
and what `NotebookLMClient.from_storage()` yields (a client, or a raised
exception). -/
structure Env where
  stdin : StdinData
  from_storage : Except Exc Client

/-- The JSON object written to standard output (line 161–167 /
lines 173–179). -/
structure Report where
  notebook_id : String
  notebook_title : String
  added : Nat
  failed : Nat
  errors : List String
deriving DecidableEq

/-- The degenerate report of lines 173–179. -/
def scriptErrorReport (msg : String) : Report :=
  ⟨"", "", 0, 0, ["Script error: " ++ msg]⟩

/-- Lines 137–182: `main`.  Returns the single report written to stdout, the
process exit status, and the trace of remote interactions (session
acquisition and client calls).  Any modelled exception escaping the body is
caught once at line 172 and converted to the degenerate report with exit
status 1; a completed run exits 0. -/
def main (env : Env) : Report × Nat × List CallEvent :=
  match env.stdin with
  | .malformed msg => (scriptErrorReport msg, 1, [])
  | .missingField msg => (scriptErrorReport msg, 1, [])
  | .valid target urls =>
    match env.from_storage with
    | .error e => (scriptErrorReport e.msg, 1, [.fromStorage])
    | .ok client =>
      let r1 := resolve_notebook client target
      match r1.1 with
      | .error e => (scriptErrorReport e.msg, 1, .fromStorage :: r1.2)
      | .ok (notebook_id, notebook_title) =>
        let p1 := add_urls_phase1 client notebook_id urls
        let p2 := wait_for_sources_phase2 client notebook_id p1.1.1 120
        match p2.1 with
        | .error e => (scriptErrorReport e.msg, 1, .fromStorage :: (r1.2 ++ p1.2 ++ p2.2))
        | .ok _ =>
          (⟨notebook_id, notebook_title, p1.1.1.length, p1.1.2.length,
              p1.1.2.map (fun p => p.1 ++ ": " ++ p.2)⟩, 0,
            .fromStorage :: (r1.2 ++ p1.2 ++ p2.2))

/-- The source ids phase 1 collects, as a `filterMap` over the input URLs in
order: one id per successful submission. -/
def addedOf (client : Client) (notebook_id : String) (urls : List String) :
    List String :=
  urls.filterMap (fun url =>
    match client.sources_add_url notebook_id url with
    | .ok source => some source.id
    | .error _ => none)

/-- The failures phase 1 records, as a `filterMap` over the input URLs in
order: one `(url, message)` pair per failed submission. -/
def failedOf (client : Client) (notebook_id : String) (urls : List String) :
    List (String × String) :=
  urls.filterMap (fun url =>
    match client.sources_add_url notebook_id url with
    | .ok _ => none
    | .error e => some (url, perUrlFailureMsg e))

lemma add_urls_phase1_eq (client : Client) (notebook_id : String)
    (urls : List String) :
    add_urls_phase1 client notebook_id urls =
      ((addedOf client notebook_id urls, failedOf client notebook_id urls),
        urls.map (CallEvent.addUrl notebook_id)) := by
  induction urls with
  | nil => rfl
  | cons url rest ih =>
    cases h : client.sources_add_url notebook_id url with
    | ok s =>
      simp [add_urls_phase1, addedOf, failedOf, List.filterMap_cons, h, ih,
        List.map_cons]
    | error e =>
      simp [add_urls_phase1, addedOf, failedOf, List.filterMap_cons, h, ih,
        List.map_cons]

lemma wait_trace_eq (client : Client) (nid : String) (ids : List String) (t : ℚ) :
    (wait_for_sources_phase2 client nid ids t).2 =
      if ids = [] then [] else [.waitForSources nid ids t] := by
  cases ids with
  | nil => rfl
  | cons a l =>
    simp only [wait_for_sources_phase2, List.isEmpty_cons, if_false]
    cases client.sources_wait_for_sources nid (a :: l) t with
    | ok _ => simp
    | error e => cases he : e.isTimeoutError <;> simp [he]

/-- C1: phase 1 partitions the input URLs: the number of added source ids
plus the number of recorded failures equals the length of the input list
(and phase 1 raises no fatal error — `add_urls_phase1` is total). -/
theorem c1_phase1_partition (client : Client) (notebook_id : String)
    (urls : List String) :
    (add_urls_phase1 client notebook_id urls).1.1.length +
      (add_urls_phase1 client notebook_id urls).1.2.length = urls.length := by
  induction urls with
  | nil => rfl
  | cons url rest ih =>
    cases h : client.sources_add_url notebook_id url with
    | ok s => simp only [add_urls_phase1, h, List.length_cons]; omega
    | error e => simp only [add_urls_phase1, h, List.length_cons]; omega

/-- C2: a failure on one URL never aborts phase 1 — the trace shows every
input URL is attempted; a `SourceAddError`/`RateLimitError` is recorded with
the service-provided message and any other exception is recorded (not
escalated) with the "Unexpected error: " prefix, so the categories stay
distinguishable. -/
theorem c2_phase1_resilience (client : Client) (notebook_id : String)
    (urls : List String) :
    (add_urls_phase1 client notebook_id urls).2 =
        urls.map (CallEvent.addUrl notebook_id)
    ∧ (add_urls_phase1 client notebook_id urls).1.2 =
        failedOf client notebook_id urls
    ∧ ∀ url e, url ∈ urls → client.sources_add_url notebook_id url = .error e →
        (url, if e.isSourceAddOrRateLimit = true then e.msg
              else "Unexpected error: " ++ e.msg)
          ∈ (add_urls_phase1 client notebook_id urls).1.2 := by
  refine ⟨(add_urls_phase1_eq client notebook_id urls).symm ▸ rfl,
    (add_urls_phase1_eq client notebook_id urls).symm ▸ rfl, ?_⟩
  intro url e hmem herr
  rw [add_urls_phase1_eq]
  simp only [failedOf, List.mem_filterMap]
  refine ⟨url, hmem, ?_⟩
  rw [herr]
  by_cases hc : e.isSourceAddOrRateLimit = true <;>
    simp [perUrlFailureMsg, hc]

def c2Client : Client :=
  { notebooks_get := fun t => .ok ⟨t, t⟩
    notebooks_list := .ok []
    notebooks_create := fun t => .ok ⟨"created-id", t⟩
    sources_add_url := fun _ url =>
      if url = "u2" then .error (.sourceAddError "rejected")
      else if url = "u3" then .error (.otherError "boom")
      else .ok ⟨"s-" ++ url⟩
    sources_wait_for_sources := fun _ _ _ => .ok () }

/-- Witness for C2 at a client where URL `u2` is rejected and `u3` raises an
unrelated exception: both later URLs are still attempted and both failure
categories appear, distinguishably, in the recorded failures. -/
theorem c2_phase1_resilience_witness :
    (add_urls_phase1 c2Client "nb" ["u1", "u2", "u3", "u4"]).2 =
        [.addUrl "nb" "u1", .addUrl "nb" "u2", .addUrl "nb" "u3", .addUrl "nb" "u4"]
    ∧ ("u2", "rejected") ∈ (add_urls_phase1 c2Client "nb" ["u1", "u2", "u3", "u4"]).1.2
    ∧ ("u3", "Unexpected error: boom")
        ∈ (add_urls_phase1 c2Client "nb" ["u1", "u2", "u3", "u4"]).1.2 := by
  refine ⟨(c2_phase1_resilience c2Client "nb" ["u1", "u2", "u3", "u4"]).1, ?_, ?_⟩
  · have := (c2_phase1_resilience c2Client "nb" ["u1", "u2", "u3", "u4"]).2.2
      "u2" (.sourceAddError "rejected") (by decide) (by decide)
    simpa using this
  · have := (c2_phase1_resilience c2Client "nb" ["u1", "u2", "u3", "u4"]).2.2
      "u3" (.otherError "boom") (by decide) (by decide)
    simpa using this

/-- C3: notebook resolution attempts get-by-id, then title search, then
create, in strict order, stopping at the first success; the title search
lowercases both sides, takes the first match in listing order, and a
case-insensitive match returns the existing notebook without a create
call. -/
theorem c3_resolution_order (client : Client) (target : String) :
    (∀ nb, client.notebooks_get target = .ok nb →
      resolve_notebook client target = (.ok (nb.id, nb.title), [.get target]))
    ∧ (∀ e nbs nb, client.notebooks_get target = .error e →
        e.isRPCError = true →
        client.notebooks_list = .ok nbs →
        nbs.find? (fun x => str_lower x.title == str_lower target) = some nb →
        resolve_notebook client target =
          (.ok (nb.id, nb.title), [.get target, .list]))
    ∧ (∀ e nbs, client.notebooks_get target = .error e →
        e.isRPCError = true →
        client.notebooks_list = .ok nbs →
        nbs.find? (fun x => str_lower x.title == str_lower target) = none →
        resolve_notebook client target =
          ((match client.notebooks_create target with
            | .ok nb => .ok (nb.id, nb.title)
            | .error err => .error err),
            [.get target, .list, .create target])) := by
  refine ⟨?_, ?_, ?_⟩
  · intro nb h
    simp [resolve_notebook, h]
  · intro e nbs nb hget hrpc hlist hfind
    simp only [resolve_notebook, hget, hrpc, if_true, search_or_create, hlist, hfind]
  · intro e nbs hget hrpc hlist hfind
    simp only [resolve_notebook, hget, hrpc, if_true, search_or_create, hlist, hfind]
    cases client.notebooks_create target <;> rfl

def c3Client : Client :=
  { notebooks_get := fun _ => .error (.rpcError "not found")
    notebooks_list := .ok [⟨"found-id-789", "My Docs"⟩]
    notebooks_create := fun t => .ok ⟨"new-id", t⟩
    sources_add_url := fun _ url => .ok ⟨"s-" ++ url⟩
    sources_wait_for_sources := fun _ _ _ => .ok () }

/-- Witness for C3: resolving "my docs" against a listing that contains a
notebook titled "My Docs" (get-by-id raising `RPCError`) returns the
existing notebook, and the trace contains no create call. -/
theorem c3_resolution_order_witness :
    resolve_notebook c3Client "my docs" =
      (.ok ("found-id-789", "My Docs"), [.get "my docs", .list]) :=
  (c3_resolution_order c3Client "my docs").2.1 (.rpcError "not found")
    [⟨"found-id-789", "My Docs"⟩] ⟨"found-id-789", "My Docs"⟩
    rfl rfl rfl (by decide)

lemma main_eq_of_phase2_ok (env : Env) (target : String) (urls : List String)
    (client : Client) (nid title : String)
    (h1 : env.stdin = .valid target urls)
    (h2 : env.from_storage = .ok client)
    (h3 : (resolve_notebook client target).1 = .ok (nid, title))
    (h4 : (wait_for_sources_phase2 client nid
        (add_urls_phase1 client nid urls).1.1 120).1 = .ok ()) :
    main env =
      (⟨nid, title, (add_urls_phase1 client nid urls).1.1.length,
          (add_urls_phase1 client nid urls).1.2.length,
          (add_urls_phase1 client nid urls).1.2.map (fun p => p.1 ++ ": " ++ p.2)⟩, 0,
        .fromStorage :: ((resolve_notebook client target).2
          ++ (add_urls_phase1 client nid urls).2
          ++ (wait_for_sources_phase2 client nid
              (add_urls_phase1 client nid urls).1.1 120).2)) := by
  simp only [main, h1, h2, h3, h4]

lemma main_eq_of_phase2_error (env : Env) (target : String) (urls : List String)
    (client : Client) (nid title : String) (e : Exc)
    (h1 : env.stdin = .valid target urls)
    (h2 : env.from_storage = .ok client)
    (h3 : (resolve_notebook client target).1 = .ok (nid, title))
    (h4 : (wait_for_sources_phase2 client nid
        (add_urls_phase1 client nid urls).1.1 120).1 = .error e) :
    main env =
      (scriptErrorReport e.msg, 1,
        .fromStorage :: ((resolve_notebook client target).2
          ++ (add_urls_phase1 client nid urls).2
          ++ (wait_for_sources_phase2 client nid
              (add_urls_phase1 client nid urls).1.1 120).2)) := by
  simp only [main, h1, h2, h3, h4]

lemma main_eq_of_resolve_error (env : Env) (target : String) (urls : List String)
    (client : Client) (e : Exc)
    (h1 : env.stdin = .valid target urls)
    (h2 : env.from_storage = .ok client)
    (h3 : (resolve_notebook client target).1 = .error e) :
    main env =
      (scriptErrorReport e.msg, 1,
        .fromStorage :: (resolve_notebook client target).2) := by
  simp only [main, h1, h2, h3]

/-- A run of `main` that reaches report assembly: input parsed, session
acquired, notebook resolved, and phase 2 returned normally (phase 1 is
total, so it imposes no condition). -/
def runCompletes (env : Env) : Prop :=
  match env.stdin with
  | .malformed _ => False
  | .missingField _ => False
  | .valid target urls =>
    match env.from_storage with
    | .error _ => False
    | .ok client =>
      match (resolve_notebook client target).1 with
      | .error _ => False
      | .ok (nid, _) =>
        (wait_for_sources_phase2 client nid
          (add_urls_phase1 client nid urls).1.1 120).1 = .ok ()

/-- C4: `main` produces exactly one report per invocation (it is a total
function into a single `Report`); exit status is 0 or 1, status 1 comes with
the degenerate `Script error:` report, and status 0 holds exactly when the
run completed (per-URL failures included). -/
theorem c4_single_report_exit_status (env : Env) :
    ((main env).2.1 = 0 ∨ (main env).2.1 = 1)
    ∧ ((main env).2.1 = 1 → ∃ m, (main env).1 = scriptErrorReport m)
    ∧ ((main env).2.1 = 0 ↔ runCompletes env) := by
  obtain ⟨s, f⟩ := env
  cases s with
  | malformed m =>
    exact ⟨.inr rfl, fun _ => ⟨m, rfl⟩, by simp [main, runCompletes]⟩
  | missingField m =>
    exact ⟨.inr rfl, fun _ => ⟨m, rfl⟩, by simp [main, runCompletes]⟩
  | valid target urls =>
    cases f with
    | error e =>
      exact ⟨.inr rfl, fun _ => ⟨e.msg, rfl⟩, by simp [main, runCompletes]⟩
    | ok client =>
      cases h3 : (resolve_notebook client target).1 with
      | error e =>
        refine ⟨?_, ?_, ?_⟩ <;> simp [main, runCompletes, h3]
      | ok pr =>
        obtain ⟨nid, title⟩ := pr
        cases h4 : (wait_for_sources_phase2 client nid
            (add_urls_phase1 client nid urls).1.1 120).1 with
        | error e =>
          refine ⟨?_, ?_, ?_⟩ <;> simp [main, runCompletes, h3, h4]
        | ok u =>
          cases u
          refine ⟨?_, ?_, ?_⟩ <;> simp [main, runCompletes, h3, h4]

def okClientW : Client :=
  { notebooks_get := fun t => .ok ⟨"id-" ++ t, t⟩
    notebooks_list := .ok []
    notebooks_create := fun t => .ok ⟨"created-id", t⟩
    sources_add_url := fun _ url => .ok ⟨"s-" ++ url⟩
    sources_wait_for_sources := fun _ _ _ => .ok () }

def envC4 : Env := ⟨.valid "Test" ["https://example.com"], .ok okClientW⟩

/-- Witness for C4 at a fully successful environment: the run completes and
the process exits 0. -/
theorem c4_single_report_exit_status_witness :
    runCompletes envC4 ∧ (main envC4).2.1 = 0 :=
  have h : runCompletes envC4 := rfl
  ⟨h, (c4_single_report_exit_status envC4).2.2.mpr h⟩

/-- C5: with a non-empty id list, phase 2 swallows a `TimeoutError` from the
batched wait and returns normally, while any other exception from the wait
call propagates out of the waiter; `main` then treats it as fatal
(degenerate report, exit 1). -/
theorem c5_phase2_error_policy :
    (∀ (client : Client) (nid : String) (ids : List String) (t : ℚ), ids ≠ [] →
      (∀ m, client.sources_wait_for_sources nid ids t = .error (.timeoutError m) →
        wait_for_sources_phase2 client nid ids t =
          (.ok (), [.waitForSources nid ids t]))
      ∧ ∀ e, client.sources_wait_for_sources nid ids t = .error e →
          e.isTimeoutError = false →
          wait_for_sources_phase2 client nid ids t =
            (.error e, [.waitForSources nid ids t]))
    ∧ ∀ (env : Env) (target : String) (urls : List String) (client : Client)
        (nid title : String) (e : Exc),
        env.stdin = .valid target urls →
        env.from_storage = .ok client →
        (resolve_notebook client target).1 = .ok (nid, title) →
        (wait_for_sources_phase2 client nid
            (add_urls_phase1 client nid urls).1.1 120).1 = .error e →
        (main env).1 = scriptErrorReport e.msg ∧ (main env).2.1 = 1 := by
  constructor
  · intro client nid ids t hne
    cases ids with
    | nil => exact absurd rfl hne
    | cons a l =>
      constructor
      · intro m hw
        simp [wait_for_sources_phase2, hw, Exc.isTimeoutError]
      · intro e hw ht
        simp [wait_for_sources_phase2, hw, ht]
  · intro env target urls client nid title e h1 h2 h3 h4
    rw [main_eq_of_phase2_error env target urls client nid title e h1 h2 h3 h4]
    exact ⟨rfl, rfl⟩

def c5TimeoutClient : Client :=
  { notebooks_get := fun t => .ok ⟨"id-" ++ t, t⟩
    notebooks_list := .ok []
    notebooks_create := fun t => .ok ⟨"created-id", t⟩
    sources_add_url := fun _ url => .ok ⟨"s-" ++ url⟩
    sources_wait_for_sources := fun _ _ _ => .error (.timeoutError "timed out") }

def c5FatalClient : Client :=
  { notebooks_get := fun t => .ok ⟨"id-" ++ t, t⟩
    notebooks_list := .ok []
    notebooks_create := fun t => .ok ⟨"created-id", t⟩
    sources_add_url := fun _ url => .ok ⟨"s-" ++ url⟩
    sources_wait_for_sources := fun _ _ _ => .error (.rpcError "rpc down") }

def envC5 : Env := ⟨.valid "T" ["u"], .ok c5FatalClient⟩

/-- Witness for C5: a timing-out wait is swallowed, and a non-timeout wait
failure makes `main` exit 1 with the degenerate report. -/
theorem c5_phase2_error_policy_witness :
    wait_for_sources_phase2 c5TimeoutClient "nb" ["s1"] 120 =
      (.ok (), [.waitForSources "nb" ["s1"] 120])
    ∧ (main envC5).1 = scriptErrorReport "rpc down" ∧ (main envC5).2.1 = 1 := by
  constructor
  · exact (c5_phase2_error_policy.1 c5TimeoutClient "nb" ["s1"] 120
      (by decide)).1 "timed out" rfl
  · have h := c5_phase2_error_policy.2 envC5 "T" ["u"] c5FatalClient "id-T" "T"
      (.rpcError "rpc down") rfl rfl (by decide) (by decide)
    exact ⟨h.1.trans (by decide), h.2⟩

/-- C6: phase-1 submission is strictly sequential in the embedding (each
call is resolved before the next is issued): the trace is exactly one
`addUrl` event per input URL in input order, and the recorded outcomes are
the in-order `filterMap`s of the input list (added ids in input order,
failures in input order). -/
theorem c6_sequential_in_order (client : Client) (nid : String)
    (urls : List String) :
    (add_urls_phase1 client nid urls).2 = urls.map (CallEvent.addUrl nid)
    ∧ (add_urls_phase1 client nid urls).1.1 = addedOf client nid urls
    ∧ (add_urls_phase1 client nid urls).1.2 = failedOf client nid urls := by
  rw [add_urls_phase1_eq]
  exact ⟨rfl, rfl, rfl⟩

/-- C7: phase 2 is a no-op on an empty id list (no remote call at all);
otherwise it issues exactly one batched wait call over the full id list; in
`main` the wait call appears exactly once, after all submissions, over
exactly the successfully-submitted ids, with timeout 120. -/
theorem c7_wait_once :
    (∀ (client : Client) (nid : String) (t : ℚ),
      wait_for_sources_phase2 client nid [] t = (.ok (), []))
    ∧ (∀ (client : Client) (nid : String) (ids : List String) (t : ℚ), ids ≠ [] →
        (wait_for_sources_phase2 client nid ids t).2 = [.waitForSources nid ids t])
    ∧ ∀ (env : Env) (target : String) (urls : List String) (client : Client)
        (nid title : String),
        env.stdin = .valid target urls →
        env.from_storage = .ok client →
        (resolve_notebook client target).1 = .ok (nid, title) →
        (main env).2.2 =
          .fromStorage :: ((resolve_notebook client target).2
            ++ urls.map (CallEvent.addUrl nid)
            ++ (if (add_urls_phase1 client nid urls).1.1 = [] then []
                else [.waitForSources nid (add_urls_phase1 client nid urls).1.1 120])) := by
  refine ⟨fun client nid t => rfl, ?_, ?_⟩
  · intro client nid ids t hne
    rw [wait_trace_eq, if_neg hne]
  · intro env target urls client nid title h1 h2 h3
    have htr : (main env).2.2 =
        .fromStorage :: ((resolve_notebook client target).2
          ++ (add_urls_phase1 client nid urls).2
          ++ (wait_for_sources_phase2 client nid
              (add_urls_phase1 client nid urls).1.1 120).2) := by
      cases h4 : (wait_for_sources_phase2 client nid
          (add_urls_phase1 client nid urls).1.1 120).1 with
      | ok u =>
        cases u
        rw [main_eq_of_phase2_ok env target urls client nid title h1 h2 h3 h4]
      | error e =>
        rw [main_eq_of_phase2_error env target urls client nid title e h1 h2 h3 h4]
    rw [htr, wait_trace_eq, (add_urls_phase1_eq client nid urls)]

def envC7 : Env := ⟨.valid "T" ["a", "b"], .ok okClientW⟩

/-- Witness for C7: a two-URL run issues the wait exactly once, after both
submissions, over both source ids, with timeout 120. -/
theorem c7_wait_once_witness :
    (main envC7).2.2 =
      [.fromStorage, .get "T", .addUrl "id-T" "a", .addUrl "id-T" "b",
        .waitForSources "id-T" ["s-a", "s-b"] 120] := by
  have h := c7_wait_once.2.2 envC7 "T" ["a", "b"] okClientW "id-T" "T"
    rfl rfl (by decide)
  rw [h]
  decide

/-- C8: on a successful run, the report has `added = len(addedIds)`,
`failed = len(failures)`, and `errors` is exactly the failures mapped to
`"url: message"` in recording order; the exit status is 0. -/
theorem c8_report_assembly (env : Env) (target : String) (urls : List String)
    (client : Client) (nid title : String)
    (h1 : env.stdin = .valid target urls)
    (h2 : env.from_storage = .ok client)
    (h3 : (resolve_notebook client target).1 = .ok (nid, title))
    (h4 : (wait_for_sources_phase2 client nid
        (add_urls_phase1 client nid urls).1.1 120).1 = .ok ()) :
    (main env).1 = ⟨nid, title, (add_urls_phase1 client nid urls).1.1.length,
        (add_urls_phase1 client nid urls).1.2.length,
        (add_urls_phase1 client nid urls).1.2.map (fun p => p.1 ++ ": " ++ p.2)⟩
    ∧ (main env).2.1 = 0 := by
  rw [main_eq_of_phase2_ok env target urls client nid title h1 h2 h3 h4]
  exact ⟨rfl, rfl⟩

def c8Client : Client :=
  { notebooks_get := fun t => .ok ⟨"id-" ++ t, t⟩
    notebooks_list := .ok []
    notebooks_create := fun t => .ok ⟨"created-id", t⟩
    sources_add_url := fun _ url =>
      if url = "bad" then .error (.rateLimitError "slow down")
      else .ok ⟨"s-" ++ url⟩
    sources_wait_for_sources := fun _ _ _ => .ok () }

def envC8 : Env := ⟨.valid "NB" ["a", "bad"], .ok c8Client⟩

/-- Witness for C8: one success and one rate-limited failure yield
`added = 1`, `failed = 1`, `errors = ["bad: slow down"]`, exit 0. -/
theorem c8_report_assembly_witness :
    (main envC8).1 = ⟨"id-NB", "NB", 1, 1, ["bad: slow down"]⟩
    ∧ (main envC8).2.1 = 0 := by
  have h := c8_report_assembly envC8 "NB" ["a", "bad"] c8Client "id-NB" "NB"
    rfl rfl (by decide) (by decide)
  exact ⟨h.1.trans (by decide), h.2⟩

/-- C9: the fallback from get-by-id to the title search is triggered exactly
by an `RPCError` from the get, which is recovered locally (resolution
continues with list/search/create and the error is never surfaced); any
other exception from the get propagates out of `resolve_notebook` and
reaches the outer fatal boundary of `main`. -/
theorem c9_rpc_fallback (client : Client) (target : String) (e : Exc)
    (h : client.notebooks_get target = .error e) :
    (e.isRPCError = true →
      resolve_notebook client target =
        ((search_or_create client target).1,
          .get target :: (search_or_create client target).2))
    ∧ (e.isRPCError = false →
        resolve_notebook client target = (.error e, [.get target])
        ∧ ∀ (env : Env) (urls : List String),
            env.stdin = .valid target urls →
            env.from_storage = .ok client →
            (main env).1 = scriptErrorReport e.msg ∧ (main env).2.1 = 1) := by
  constructor
  · intro hrpc
    simp [resolve_notebook, h, hrpc]
  · intro hrpc
    have hres : resolve_notebook client target = (.error e, [.get target]) := by
      simp [resolve_notebook, h, hrpc]
    refine ⟨hres, ?_⟩
    intro env urls h1 h2
    have := main_eq_of_resolve_error env target urls client e h1 h2 (by rw [hres])
    rw [this]
    exact ⟨rfl, rfl⟩

def c9RpcClient : Client :=
  { notebooks_get := fun _ => .error (.rpcError "not found")
    notebooks_list := .ok []
    notebooks_create := fun t => .ok ⟨"cid", t⟩
    sources_add_url := fun _ url => .ok ⟨"s-" ++ url⟩
    sources_wait_for_sources := fun _ _ _ => .ok () }

def c9OtherClient : Client :=
  { notebooks_get := fun _ => .error (.otherError "db down")
    notebooks_list := .ok []
    notebooks_create := fun t => .ok ⟨"cid", t⟩
    sources_add_url := fun _ url => .ok ⟨"s-" ++ url⟩
    sources_wait_for_sources := fun _ _ _ => .ok () }

def envC9 : Env := ⟨.valid "X" [], .ok c9OtherClient⟩

/-- Witness for C9: an `RPCError` from the get falls through to list/create
and is not surfaced, while an unrelated get exception propagates to `main`'s
fatal boundary. -/
theorem c9_rpc_fallback_witness :
    resolve_notebook c9RpcClient "X" =
      (.ok ("cid", "X"), [.get "X", .list, .create "X"])
    ∧ (main envC9).1 = scriptErrorReport "db down" ∧ (main envC9).2.1 = 1 := by
  constructor
  · have h := (c9_rpc_fallback c9RpcClient "X" (.rpcError "not found") rfl).1 rfl
    rw [h]
    decide
  · have h := (c9_rpc_fallback c9OtherClient "X" (.otherError "db down") rfl).2 rfl
    have h2 := h.2 envC9 [] rfl rfl
    exact ⟨h2.1.trans (by decide), h2.2⟩

/-- C10: when standard input is malformed JSON or lacks a required field,
`main` emits the degenerate report with exit 1 and its trace is empty — no
session acquisition and no client call ever happens. -/
theorem c10_parse_failure_no_remote (env : Env) (m : String) :
    (env.stdin = .malformed m → main env = (scriptErrorReport m, 1, []))
    ∧ (env.stdin = .missingField m → main env = (scriptErrorReport m, 1, [])) := by
  constructor <;> intro h <;> simp [main, h]

def envC10a : Env := ⟨.malformed "Expecting value", .ok okClientW⟩

def envC10b : Env := ⟨.missingField "urls", .ok okClientW⟩

/-- Witness for C10: malformed JSON and a missing required field each yield
the degenerate report, exit 1, and an empty remote trace. -/
theorem c10_parse_failure_no_remote_witness :
    main envC10a = (scriptErrorReport "Expecting value", 1, [])
    ∧ main envC10b = (scriptErrorReport "urls", 1, []) :=
  ⟨(c10_parse_failure_no_remote envC10a "Expecting value").1 rfl,
    (c10_parse_failure_no_remote envC10b "urls").2 rfl⟩

end Axon
